import Mathlib

/-!
# Verification of the `run-editor` library core

A shallow embedding of the `run-editor` Rust crate (files `src/lib.rs`,
`src/imp.rs`, `src/error.rs`) together with proofs about its behaviour.

The crate's operations interact with the operating system: they read
environment variables, spawn a shell running the user's editor, and create,
write, read, rename and delete files.  The embedding models these
interactions explicitly:

* the process environment is a function `Env := String → Option String`;
* the filesystem is a function `FS := Path → Option (List Nat)` mapping each
  path to the byte contents of the file stored there (`none` = no file);
* the outcome of every fallible OS primitive (opening a file, resolving the
  current directory, creating a temporary file, streaming a copy, renaming,
  spawning the shell) is supplied by oracle values, so that theorems
  quantify over every possible behaviour of the operating system;
* spawning the shell is an oracle function from the full command line to a
  `SpawnOutcome`: either the spawn itself fails with an OS error, or the
  command runs to a termination status, having replaced the contents of the
  file it was pointed at (the editor is assumed to communicate only through
  that file, as the crate's documentation states).

Each Lean definition is translated directly from the correspondingly named
Rust function.
-/

namespace RunEditor

/-! ## OS-level data types -/

/-- Model of `std::io::Error`: either constructed from a raw OS error code
(`io::Error::from_raw_os_error`) or an error with a custom message. -/
inductive IOError
  | fromRawOs (code : Nat)
  | custom (msg : String)
deriving DecidableEq, Repr

/-- Rendering of `std::io::Error` via its `Display` implementation. -/
def IOError.render : IOError → String
  | .fromRawOs 2 => "No such file or directory (os error 2)"
  | .fromRawOs 21 => "Is a directory (os error 21)"
  | .fromRawOs c => "(os error " ++ toString c ++ ")"
  | .custom m => m

/-- Model of a filesystem path, split into the question whether the path is
absolute and its list of normal components.  `Path::new("/")` is
`⟨true, []⟩`, `Path::new("")` is `⟨false, []⟩`, `Path::new("a/b")` is
`⟨false, ["a", "b"]⟩`. -/
structure Path where
  absolute : Bool
  components : List String
deriving DecidableEq, Repr

/-- The empty relative path, `Path::new("")`. -/
def Path.empty : Path := ⟨false, []⟩

/-- `Path::join` with a single normal component: the file `name` inside
directory `p`. -/
def Path.join (p : Path) (name : String) : Path :=
  ⟨p.absolute, p.components ++ [name]⟩

/-- `Path::parent`: `none` when the path is empty or consists only of a
root, otherwise the path with its last component removed. -/
def Path.parent (p : Path) : Option Path :=
  if p.components.isEmpty then none
  else some ⟨p.absolute, p.components.dropLast⟩

/-- `Path::display`, rendering the path as a string. -/
def Path.display (p : Path) : String :=
  (if p.absolute then "/" else "") ++ String.intercalate "/" p.components

/-- Model of `std::process::ExitStatus` on Unix: the process either exited
with a code or was terminated by a signal. -/
inductive ExitStatus
  | exited (code : Nat)
  | signaled (sig : Nat)
deriving DecidableEq, Repr

/-- `ExitStatus::success`: true exactly for exit code 0. -/
def ExitStatus.success : ExitStatus → Bool
  | .exited 0 => true
  | _ => false

/-- `ExitStatus::code`: `Some(code)` for a normal exit, `None` for
termination by signal. -/
def ExitStatus.code : ExitStatus → Option Nat
  | .exited c => some c
  | .signaled _ => none

/-- Names of the common Unix signals, as the Rust standard library resolves
them when displaying an `ExitStatus`. -/
def sigName : Nat → String
  | 1 => "SIGHUP"
  | 2 => "SIGINT"
  | 6 => "SIGABRT"
  | 9 => "SIGKILL"
  | 11 => "SIGSEGV"
  | 15 => "SIGTERM"
  | _ => "<unknown>"

/-- The `Display` implementation of `std::process::ExitStatus` on Unix:
`exit status: N` for a normal exit, `signal: S (NAME)` for termination by
signal. -/
def ExitStatus.render : ExitStatus → String
  | .exited c => "exit status: " ++ toString c
  | .signaled s => "signal: " ++ toString s ++ " (" ++ sigName s ++ ")"

/-! ## The error model (`src/error.rs`) -/

/-- The internal error enum `error::Inner`. -/
inductive Inner
  | CmdError (error : IOError)
  | EditorError (editor : String) (status : ExitStatus)
  | PathError (path : Path) (error : IOError)
deriving DecidableEq, Repr

/-- The public opaque error type `error::Error`, a wrapper around `Inner`. -/
structure Error where
  inner : Inner
deriving DecidableEq, Repr

/-- The `Display` implementation of `Error` from `src/error.rs`.  (For the
`EditorError` arm the Rust code displays the editor command through
`Path::new(editor).display()`, which for a UTF-8 command string is the
string itself.) -/
def Error.display : Error → String
  | ⟨.CmdError error⟩ => "sh: " ++ error.render
  | ⟨.EditorError editor status⟩ =>
      editor ++ ": terminated " ++
        (if status.code.isSome then "with" else "by") ++ " " ++ status.render
  | ⟨.PathError path error⟩ => path.display ++ ": " ++ error.render

/-! ## The environment and the filesystem -/

/-- The process environment: `std::env::var_os`. -/
abbrev Env := String → Option String

/-- The filesystem: contents (a byte list) of the file at each path. -/
abbrev FS := Path → Option (List Nat)

/-- Update the filesystem: the file at `p` now holds `v` (`none` deletes). -/
def fsUpdate (fs : FS) (p : Path) (v : Option (List Nat)) : FS :=
  fun q => if q = p then v else fs q

/-- Delete the file at `p`. -/
def delFile (fs : FS) (p : Path) : FS := fsUpdate fs p none

/-! ## The `Edit` configuration and editor resolution (`src/lib.rs`) -/

/-- The `Edit` struct: two optional overrides. -/
structure Edit where
  editor_variable : Option String
  editor_command : Option String
deriving DecidableEq, Repr

/-- The `edit()` constructor: both overrides unset. -/
def edit : Edit := ⟨none, none⟩

/-- `Edit::editor`: resolve the editor command from the configuration and
the environment, translated clause by clause from `src/lib.rs`:

    self.editor_variable
        .and_then(|var| std::env::var_os(var))
        .or_else(|| self.editor_command.map(OsString::from))
        .or_else(|| std::env::var_os("VISUAL"))
        .or_else(|| std::env::var_os("EDITOR"))
        .unwrap_or_else(|| OsString::from("vi"))
-/
def Edit.editor (self : Edit) (env : Env) : String :=
  ((((self.editor_variable.bind env).orElse
      (fun _ => self.editor_command)).orElse
      (fun _ => env "VISUAL")).orElse
      (fun _ => env "EDITOR")).getD "vi"

/-- `Edit::editor_unless_nop`: the resolved command, or `none` when the
command is exactly `":"` or `"true"`. -/
def Edit.editor_unless_nop (self : Edit) (env : Env) : Option String :=
  let editor := self.editor env
  if editor = ":" ∨ editor = "true" then none else some editor

/-! ## Spawning the editor (`src/imp.rs`, `edit_file`) -/

/-- `concat_os_str`: concatenation of two strings. -/
def concat_os_str (x y : String) : String := x ++ y

/-- The full command line handed to `/bin/sh -c`: the editor command with
` "$TMP_file_path"` appended (the path itself travels through the
environment variable `TMP_file_path`). -/
def shellCommand (editor : String) : String :=
  concat_os_str editor " \"$TMP_file_path\""

/-- Everything the operating system can do with one shell invocation:
either the spawn fails with an OS error, or the command runs to a
termination `status`, leaving `newContent` as the contents of the file the
editor was pointed at (`none` = the editor deleted the file). -/
inductive SpawnOutcome
  | spawnErr (error : IOError)
  | ran (status : ExitStatus) (newContent : Option (List Nat))

/-- A spawn oracle: the OS behaviour as a function of the command line. -/
abbrev SpawnOracle := String → SpawnOutcome

/-- `imp::edit_file`: build the shell command, spawn `/bin/sh -c` with it,
wait for termination.  Spawn failure becomes `Inner::CmdError`;
an unsuccessful termination status becomes `Inner::EditorError` carrying
the resolved command and the status; exit code 0 is success.  The file at
`path` holds whatever the editor left there in every case where the
process ran. -/
def edit_file (editor : String) (path : Path) (spawn : SpawnOracle) (fs : FS) :
    Except Error Unit × FS :=
  match spawn (shellCommand editor) with
  | .spawnErr e => (.error ⟨.CmdError e⟩, fs)
  | .ran status newContent =>
      let fs' := fsUpdate fs path newContent
      if status.success then (.ok (), fs')
      else (.error ⟨.EditorError editor status⟩, fs')

/-! ## Temporary files (`src/imp.rs`) -/

/-- `imp::new_temp_file`: `tempfile::NamedTempFile::new_in(&tempdir)` with
the temp directory as path context on failure.  The OS either refuses
(`tempErr`) or creates a file with a fresh name (`tempName`) inside
`tempdir`; a newly created temporary file is empty. -/
def new_temp_file (tempdir : Path) (tempErr : Option IOError)
    (tempName : String) (fs : FS) : Except Error Path × FS :=
  match tempErr with
  | some e => (.error ⟨.PathError tempdir e⟩, fs)
  | none =>
      let p := tempdir.join tempName
      (.ok p, fsUpdate fs p (some []))

/-- `File::open` followed by `read_to_end`, as in `edit_buffer`'s
read-back: fails with the oracle's error if the OS reports one, with
`ENOENT` if no file exists at the path, and otherwise yields the file's
contents. -/
def readFile (fs : FS) (p : Path) (readErr : Option IOError) :
    Except IOError (List Nat) :=
  match readErr with
  | some e => .error e
  | none =>
      match fs p with
      | some content => .ok content
      | none => .error (.fromRawOs 2)

/-- OS behaviour consumed by one `edit_buffer` call. -/
structure BufferOracle where
  /-- `std::env::temp_dir()`. -/
  tempDir : Path
  /-- Failure of `NamedTempFile::new_in`, if any. -/
  tempErr : Option IOError
  /-- Fresh name of the created temporary file. -/
  tempName : String
  /-- Failure of `write_all`, if any. -/
  writeErr : Option IOError
  /-- Failure of the read-back (`File::open` / `read_to_end`), if any. -/
  readErr : Option IOError

/-- `imp::edit_buffer`: create a temporary file in the platform temp
directory, write the buffer to it, run the editor on it, re-open the file
by path and read it back, and return the read bytes.  The temporary file
is deleted on every exit path (`NamedTempFile` / `TempPath` delete the
file when dropped, which in Rust happens on each early `?`-return and at
the end of the function). -/
def edit_buffer (editor : String) (buf : List Nat) (spawn : SpawnOracle)
    (o : BufferOracle) (fs : FS) : Except Error (List Nat) × FS :=
  match new_temp_file o.tempDir o.tempErr o.tempName fs with
  | (.error e, fs₁) => (.error e, fs₁)
  | (.ok path, fs₁) =>
      match o.writeErr with
      | some e => (.error ⟨.PathError path e⟩, delFile fs₁ path)
      | none =>
          let fs₂ := fsUpdate fs₁ path (some buf)
          match edit_file editor path spawn fs₂ with
          | (.error e, fs₃) => (.error e, delFile fs₃ path)
          | (.ok _, fs₃) =>
              match readFile fs₃ path o.readErr with
              | .error e => (.error ⟨.PathError path e⟩, delFile fs₃ path)
              | .ok bytes => (.ok bytes, delFile fs₃ path)

/-- OS behaviour consumed by one `copy_temp` call. -/
structure CopyOracle where
  /-- Failure of `File::open(src)`, other than the file being absent. -/
  srcOpen : Option IOError
  /-- Result of `std::env::current_dir()`. -/
  cwdRes : Except IOError Path
  /-- Failure of `NamedTempFile::new_in`, if any. -/
  tempErr : Option IOError
  /-- Fresh name of the created temporary file. -/
  tempName : String
  /-- Failure of `std::io::copy`, if any. -/
  copyErr : Option IOError

/-- `imp::copy_temp`: open `src` for reading, determine the directory that
will host the temporary file from `dst.parent()` (no parent → an
`EISDIR` path error on `dst`; empty parent → the current working
directory), create the temporary file there, and stream-copy `src` into
it, attributing a copy failure to the temp file and deleting it.  On
success the temp file holds `src`'s contents. -/
def copy_temp (src dst : Path) (o : CopyOracle) (fs : FS) :
    Except Error Path × FS :=
  match (match o.srcOpen with
         | some e => Except.error e
         | none =>
             match fs src with
             | some content => Except.ok content
             | none => Except.error (IOError.fromRawOs 2)) with
  | .error e => (.error ⟨.PathError src e⟩, fs)
  | .ok content =>
      match dst.parent with
      | none => (.error ⟨.PathError dst (.fromRawOs 21)⟩, fs)
      | some p =>
          match (if p = Path.empty then
                   match o.cwdRes with
                   | .error e => Except.error (Error.mk (.PathError p e))
                   | .ok cwd => Except.ok cwd
                 else Except.ok p) with
          | .error e => (.error e, fs)
          | .ok dir =>
              match new_temp_file dir o.tempErr o.tempName fs with
              | (.error e, fs₁) => (.error e, fs₁)
              | (.ok tpath, fs₁) =>
                  match o.copyErr with
                  | some e =>
                      (.error ⟨.PathError tpath e⟩, delFile fs₁ tpath)
                  | none => (.ok tpath, fsUpdate fs₁ tpath (some content))

/-- `imp::persist`: `TempPath::persist`, the atomic rename of the
temporary file onto `dst`.  On failure the error carries the temp path and
the temp file, handed back inside the persist error, is dropped and hence
deleted; on success the rename moves the temp file's contents to `dst` in
one operation. -/
def persist (tpath : Path) (dst : Path) (persistErr : Option IOError)
    (fs : FS) : Except Error Unit × FS :=
  match persistErr with
  | some e => (.error ⟨.PathError tpath e⟩, delFile fs tpath)
  | none => (.ok (), fsUpdate (delFile fs tpath) dst (fs tpath))

/-! ## The public operations (`src/lib.rs`) -/

/-- `Edit::file`: resolve the editor; a no-op command succeeds immediately
without touching anything, otherwise delegate to `imp::edit_file`. -/
def Edit.file (self : Edit) (env : Env) (path : Path) (spawn : SpawnOracle)
    (fs : FS) : Except Error Unit × FS :=
  match self.editor_unless_nop env with
  | some editor => edit_file editor path spawn fs
  | none => (.ok (), fs)

/-- `Edit::buffer`: resolve the editor; a no-op command returns the buffer
unchanged immediately, otherwise delegate to `imp::edit_buffer`. -/
def Edit.buffer (self : Edit) (env : Env) (buf : List Nat)
    (spawn : SpawnOracle) (o : BufferOracle) (fs : FS) :
    Except Error (List Nat) × FS :=
  match self.editor_unless_nop env with
  | some editor => edit_buffer editor buf spawn o fs
  | none => (.ok buf, fs)

/-- OS behaviour consumed by one `file_copy` call beyond the spawn. -/
structure FileCopyOracle where
  /-- Behaviour of the `copy_temp` step. -/
  copy : CopyOracle
  /-- Failure of `TempPath::persist`, if any. -/
  persistErr : Option IOError

/-- `Edit::file_copy`: `copy_temp` into a temporary file next to `dst`,
run `Edit::file` on the temporary file, then `persist` it onto `dst`.
When `Edit::file` fails the temporary file (a `TempPath` local to
`file_copy`) is dropped and hence deleted. -/
def Edit.file_copy (self : Edit) (env : Env) (src dst : Path)
    (spawn : SpawnOracle) (o : FileCopyOracle) (fs : FS) :
    Except Error Unit × FS :=
  match copy_temp src dst o.copy fs with
  | (.error e, fs₁) => (.error e, fs₁)
  | (.ok temp, fs₁) =>
      match self.file env temp spawn fs₁ with
      | (.error e, fs₂) => (.error e, delFile fs₂ temp)
      | (.ok _, fs₂) => persist temp dst o.persistErr fs₂

/-! ## Concrete fixtures used by witnesses and counterexamples -/

/-- An environment with `FOO_EDITOR`, `VISUAL` and `EDITOR` all set. -/
def envFull : Env := fun v =>
  if v = "FOO_EDITOR" then some "foo"
  else if v = "VISUAL" then some "visual"
  else if v = "EDITOR" then some "editor"
  else none

/-- An environment with only `EDITOR` set. -/
def envEditorOnly : Env := fun v =>
  if v = "EDITOR" then some "editor" else none

/-- An environment with no variables set. -/
def envNone : Env := fun _ => none

/-- An empty filesystem. -/
def fsEmpty : FS := fun _ => none

/-- A spawn oracle whose every invocation fails to spawn. -/
def spawnFails : SpawnOracle := fun _ => .spawnErr (.custom "spawn failed")

/-- A spawn oracle under which every command exits 0 and writes `bytes`
into the edited file. -/
def spawnWrites (bytes : List Nat) : SpawnOracle :=
  fun _ => .ran (.exited 0) (some bytes)

/-- A spawn oracle under which every command exits with status 1. -/
def spawnExit1 : SpawnOracle := fun _ => .ran (.exited 1) (some [9])

/-- A concrete absolute source path `/s`. -/
def pSrc : Path := ⟨true, ["s"]⟩

/-- A concrete absolute destination path `/d`. -/
def pDst : Path := ⟨true, ["d"]⟩

/-- A filesystem holding `/s` (contents `[1, 2]`) and `/d` (contents
`[3]`). -/
def fsSrcDst : FS := fun p =>
  if p = pSrc then some [1, 2] else if p = pDst then some [3] else none

/-- A copy oracle under which every OS primitive succeeds; the temp file
is named `tmp1`. -/
def copyOracleOk : CopyOracle := ⟨none, .ok Path.empty, none, "tmp1", none⟩

/-- A copy oracle whose stream-copy step fails. -/
def copyOracleCopyFail : CopyOracle :=
  ⟨none, .ok Path.empty, none, "tmp1", some (.custom "disk full")⟩

/-- A `file_copy` oracle under which every OS primitive succeeds. -/
def fileCopyOracleOk : FileCopyOracle := ⟨copyOracleOk, none⟩

/-- A buffer oracle under which every OS primitive succeeds; the temp file
is `/tmp/t1`. -/
def bufferOracleOk : BufferOracle := ⟨⟨true, ["tmp"]⟩, none, "t1", none, none⟩

/-- A buffer oracle whose temp-file creation step fails. -/
def bufferOracleCreateFail : BufferOracle :=
  ⟨⟨true, ["tmp"]⟩, some (.custom "no temp"), "t1", none, none⟩

/-! ## Helper lemmas -/

/-- An exit status is a success exactly when it is exit code 0. -/
theorem exitStatus_success_iff (st : ExitStatus) :
    st.success = true ↔ st = .exited 0 := by
  cases st with
  | exited c => cases c <;> simp [ExitStatus.success]
  | signaled s => simp [ExitStatus.success]

/-- Reading an updated filesystem at a different path. -/
theorem fsUpdate_ne (fs : FS) (p q : Path) (v : Option (List Nat))
    (h : q ≠ p) : fsUpdate fs p v q = fs q := by
  simp [fsUpdate, h]

/-- Reading an updated filesystem at the updated path. -/
theorem fsUpdate_self (fs : FS) (p : Path) (v : Option (List Nat)) :
    fsUpdate fs p v p = v := by
  simp [fsUpdate]

/-- Reading a filesystem at a just-deleted path. -/
theorem delFile_self (fs : FS) (p : Path) : delFile fs p p = none := by
  simp [delFile, fsUpdate]

/-- Reading a filesystem at a path other than the deleted one. -/
theorem delFile_ne (fs : FS) (p q : Path) (h : q ≠ p) :
    delFile fs p q = fs q := by
  simp [delFile, fsUpdate, h]

/-- A path obtained by joining a file name onto a directory has that
directory as its parent. -/
theorem join_parent (dir : Path) (name : String) :
    (dir.join name).parent = some dir := by
  simp [Path.join, Path.parent]

/-! ## C2: editor resolution order -/

/-- C2: the resolved editor command equals the highest-priority set source:
the configured environment variable's value when that variable is set in
the environment; else the configured editor command when set; else
`VISUAL` when set; else `EDITOR` when set; else the literal `"vi"`. -/
theorem editor_resolution_order (cfg : Edit) (env : Env) :
    (∀ var v, cfg.editor_variable = some var → env var = some v →
       cfg.editor env = v) ∧
    (∀ c, cfg.editor_variable.bind env = none →
       cfg.editor_command = some c → cfg.editor env = c) ∧
    (∀ v, cfg.editor_variable.bind env = none → cfg.editor_command = none →
       env "VISUAL" = some v → cfg.editor env = v) ∧
    (∀ e, cfg.editor_variable.bind env = none → cfg.editor_command = none →
       env "VISUAL" = none → env "EDITOR" = some e → cfg.editor env = e) ∧
    (cfg.editor_variable.bind env = none → cfg.editor_command = none →
       env "VISUAL" = none → env "EDITOR" = none →
       cfg.editor env = "vi") := by
  refine ⟨?_, ?_, ?_, ?_, ?_⟩
  · intro var v h1 h2
    simp [Edit.editor, h1, h2, Option.orElse]
  · intro c h1 h2
    simp [Edit.editor, h1, h2, Option.orElse]
  · intro v h1 h2 h3
    simp [Edit.editor, h1, h2, h3, Option.orElse]
  · intro e h1 h2 h3 h4
    simp [Edit.editor, h1, h2, h3, h4, Option.orElse]
  · intro h1 h2 h3 h4
    simp [Edit.editor, h1, h2, h3, h4, Option.orElse]

/-- Witness for C2: each of the five resolution clauses evaluated at a
concrete configuration and environment. -/
theorem editor_resolution_order_witness :
    Edit.editor ⟨some "FOO_EDITOR", some "cmd"⟩ envFull = "foo" ∧
    Edit.editor ⟨some "FOO_EDITOR", some "cmd"⟩ envEditorOnly = "cmd" ∧
    Edit.editor ⟨none, none⟩ envFull = "visual" ∧
    Edit.editor ⟨none, none⟩ envEditorOnly = "editor" ∧
    Edit.editor ⟨none, none⟩ envNone = "vi" :=
  ⟨(editor_resolution_order ⟨some "FOO_EDITOR", some "cmd"⟩ envFull).1
      "FOO_EDITOR" "foo" rfl (by decide),
   (editor_resolution_order ⟨some "FOO_EDITOR", some "cmd"⟩
      envEditorOnly).2.1 "cmd" (by decide) rfl,
   (editor_resolution_order ⟨none, none⟩ envFull).2.2.1
      "visual" rfl rfl (by decide),
   (editor_resolution_order ⟨none, none⟩ envEditorOnly).2.2.2.1
      "editor" rfl rfl (by decide) (by decide),
   (editor_resolution_order ⟨none, none⟩ envNone).2.2.2.2
      rfl rfl rfl rfl⟩

/-! ## C3: the no-op editor short-circuit -/

/-- C3: when the resolved editor command is exactly `":"` or `"true"`, no
editor process is spawned: `Edit::file` succeeds leaving the filesystem
untouched (for every spawn oracle), and `Edit::buffer` returns exactly the
input buffer unchanged (for every spawn oracle and every temp-file
oracle). -/
theorem nop_editor_short_circuit (cfg : Edit) (env : Env)
    (h : cfg.editor env = ":" ∨ cfg.editor env = "true") :
    (∀ path spawn fs, cfg.file env path spawn fs = (.ok (), fs)) ∧
    (∀ buf spawn o fs, cfg.buffer env buf spawn o fs = (.ok buf, fs)) := by
  have hn : cfg.editor_unless_nop env = none := by
    simp only [Edit.editor_unless_nop, if_pos h]
  exact ⟨fun path spawn fs => by simp [Edit.file, hn],
         fun buf spawn o fs => by simp [Edit.buffer, hn]⟩

/-- Witness for C3: a configuration whose editor command is `":"`,
evaluated at a concrete path, buffer, spawn oracle and filesystem. -/
theorem nop_editor_short_circuit_witness :
    Edit.file ⟨none, some ":"⟩ envNone (Path.empty.join "f")
      spawnFails fsEmpty = (.ok (), fsEmpty) ∧
    Edit.buffer ⟨none, some ":"⟩ envNone [102, 111, 111] spawnFails
      ⟨Path.empty, none, "t", none, none⟩ fsEmpty =
      (.ok [102, 111, 111], fsEmpty) :=
  ⟨(nop_editor_short_circuit ⟨none, some ":"⟩ envNone (Or.inl rfl)).1
      (Path.empty.join "f") spawnFails fsEmpty,
   (nop_editor_short_circuit ⟨none, some ":"⟩ envNone (Or.inl rfl)).2
      [102, 111, 111] spawnFails ⟨Path.empty, none, "t", none, none⟩
      fsEmpty⟩

/-! ## C4: classification of `edit_file` outcomes -/

/-- C4: `edit_file` returns `SpawnFailure` (`Inner::CmdError`, carrying the
underlying OS error) iff spawning the shell failed; `EditorFailure`
(`Inner::EditorError`, carrying the resolved command and the termination
status) iff the process terminated with a non-zero exit code or by signal;
and `Ok(())` iff the process exited with code 0. -/
theorem edit_file_status_classification (editor : String) (path : Path)
    (spawn : SpawnOracle) (fs : FS) :
    ((edit_file editor path spawn fs).1 = .ok () ↔
       ∃ c, spawn (shellCommand editor) = .ran (.exited 0) c) ∧
    (∀ e, (edit_file editor path spawn fs).1 = .error ⟨.CmdError e⟩ ↔
       spawn (shellCommand editor) = .spawnErr e) ∧
    (∀ st, (edit_file editor path spawn fs).1 =
         .error ⟨.EditorError editor st⟩ ↔
       st.success = false ∧ ∃ c, spawn (shellCommand editor) = .ran st c) := by
  unfold edit_file
  cases hsp : spawn (shellCommand editor) with
  | spawnErr e => simp
  | ran st c =>
      by_cases hs : st.success = true
      · obtain rfl : st = .exited 0 := (exitStatus_success_iff st).mp hs
        refine ⟨⟨fun _ => ⟨c, rfl⟩, fun _ => rfl⟩,
                fun e => ⟨fun h => Except.noConfusion h,
                          fun h => SpawnOutcome.noConfusion h⟩,
                fun st' => ⟨fun h => Except.noConfusion h, ?_⟩⟩
        rintro ⟨h1, c', h2⟩
        injection h2 with h3 h4
        rw [← h3] at h1
        exact Bool.noConfusion h1
      · have hs' : st.success = false := by
          revert hs; cases st.success <;> simp
        simp only [hs', Bool.false_eq_true, if_false]
        refine ⟨⟨fun h => Except.noConfusion h, ?_⟩,
                fun e => ⟨fun h => ?_, fun h => SpawnOutcome.noConfusion h⟩,
                fun st' => ⟨fun h => ?_, ?_⟩⟩
        · rintro ⟨c', h2⟩
          injection h2 with h3 h4
          rw [h3] at hs'
          exact Bool.noConfusion hs'
        · injection h with h1
          exact Inner.noConfusion (congrArg Error.inner h1)
        · injection h with h1
          have h2 := congrArg Error.inner h1
          injection h2 with h3 h4
          subst h4
          exact ⟨hs', c, rfl⟩
        · rintro ⟨h1, c', h2⟩
          injection h2 with h3 h4
          rw [h3]

/-! ## C8: shape of editor-failure messages -/

/-- C8: an editor command that the shell runs to completion with exit
status 1 yields an error rendering as
`<command>: terminated with exit status: 1`, and a command killed by
signal 9 yields `<command>: terminated by signal: 9 (SIGKILL)` — the
preposition is `with` for exit codes and `by` for signal termination. -/
theorem editor_error_message_shape (cmd : String) (path : Path)
    (c : Option (List Nat)) (fs : FS) :
    (edit_file cmd path (fun _ => .ran (.exited 1) c) fs).1 =
      .error ⟨.EditorError cmd (.exited 1)⟩ ∧
    Error.display ⟨.EditorError cmd (.exited 1)⟩ =
      cmd ++ ": terminated with exit status: 1" ∧
    (edit_file cmd path (fun _ => .ran (.signaled 9) c) fs).1 =
      .error ⟨.EditorError cmd (.signaled 9)⟩ ∧
    Error.display ⟨.EditorError cmd (.signaled 9)⟩ =
      cmd ++ ": terminated by signal: 9 (SIGKILL)" := by
  refine ⟨rfl, ?_, rfl, ?_⟩
  · show cmd ++ ": terminated " ++ "with" ++ " " ++ _ = _
    rw [String.append_assoc, String.append_assoc, String.append_assoc]
    exact congrArg (cmd ++ ·) (by decide)
  · show cmd ++ ": terminated " ++ "by" ++ " " ++ _ = _
    rw [String.append_assoc, String.append_assoc, String.append_assoc]
    exact congrArg (cmd ++ ·) (by decide)

/-! ## C10: spawn failures render with the fixed context `sh` -/

/-- C10: when the shell process cannot be started, `edit_file` returns a
`CmdError` carrying only the OS error, and its rendering is
`sh: <OS error>`: the resolved editor command does not appear in the
message. -/
theorem spawn_failure_message_context (cmd : String) (path : Path)
    (e : IOError) (fs : FS) :
    edit_file cmd path (fun _ => .spawnErr e) fs =
      (.error ⟨.CmdError e⟩, fs) ∧
    Error.display ⟨.CmdError e⟩ = "sh: " ++ e.render :=
  ⟨rfl, rfl⟩

/-- A join of `name` onto any directory differs from any path whose last
component is not `name`. -/
theorem join_ne (dir : Path) (name : String) (q : Path)
    (h : q.components.getLast? ≠ some name) : dir.join name ≠ q := by
  intro he
  apply h
  rw [← he]
  simp [Path.join]

/-- Exhaustive description of `copy_temp`: it either fails leaving the
filesystem untouched, or fails after having created and then deleted the
temporary file, or succeeds returning a temporary file that holds exactly
`src`'s contents; every filesystem change happens at a path of the shape
`dir.join o.tempName`. -/
theorem copy_temp_cases (src dst : Path) (o : CopyOracle) (fs : FS) :
    (∃ e, copy_temp src dst o fs = (.error e, fs)) ∨
    (∃ (dir : Path) (e : IOError), copy_temp src dst o fs =
       (.error ⟨.PathError (dir.join o.tempName) e⟩,
        delFile (fsUpdate fs (dir.join o.tempName) (some []))
          (dir.join o.tempName))) ∨
    (∃ (dir : Path) (content : List Nat), fs src = some content ∧
       copy_temp src dst o fs =
       (.ok (dir.join o.tempName),
        fsUpdate (fsUpdate fs (dir.join o.tempName) (some []))
          (dir.join o.tempName) (some content))) := by
  cases hso : o.srcOpen with
  | some e =>
      exact Or.inl ⟨⟨.PathError src e⟩, by simp [copy_temp, hso]⟩
  | none =>
  cases hfs : fs src with
  | none =>
      exact Or.inl ⟨⟨.PathError src (.fromRawOs 2)⟩,
        by simp [copy_temp, hso, hfs]⟩
  | some content =>
  cases hpar : dst.parent with
  | none =>
      exact Or.inl ⟨⟨.PathError dst (.fromRawOs 21)⟩,
        by simp [copy_temp, hso, hfs, hpar]⟩
  | some p =>
  by_cases hp : p = Path.empty
  · cases hcwd : o.cwdRes with
    | error e =>
        exact Or.inl ⟨⟨.PathError Path.empty e⟩,
          by simp [copy_temp, hso, hfs, hpar, hp, hcwd]⟩
    | ok cwd =>
        cases hte : o.tempErr with
        | some e =>
            exact Or.inl ⟨⟨.PathError cwd e⟩, by
              simp [copy_temp, new_temp_file, hso, hfs, hpar, hp, hcwd, hte]⟩
        | none =>
            cases hce : o.copyErr with
            | some e =>
                refine Or.inr (Or.inl ⟨cwd, e, ?_⟩)
                simp [copy_temp, new_temp_file, hso, hfs, hpar, hp, hcwd,
                  hte, hce]
            | none =>
                refine Or.inr (Or.inr ⟨cwd, content, rfl, ?_⟩)
                simp [copy_temp, new_temp_file, hso, hfs, hpar, hp, hcwd,
                  hte, hce]
  · cases hte : o.tempErr with
    | some e =>
        exact Or.inl ⟨⟨.PathError p e⟩, by
          simp [copy_temp, new_temp_file, hso, hfs, hpar, hp, hte]⟩
    | none =>
        cases hce : o.copyErr with
        | some e =>
            refine Or.inr (Or.inl ⟨p, e, ?_⟩)
            simp [copy_temp, new_temp_file, hso, hfs, hpar, hp, hte, hce]
        | none =>
            refine Or.inr (Or.inr ⟨p, content, rfl, ?_⟩)
            simp [copy_temp, new_temp_file, hso, hfs, hpar, hp, hte, hce]

/-- `Edit::file` never touches any path other than the one it is given. -/
theorem file_fs_away (cfg : Edit) (env : Env) (path : Path)
    (spawn : SpawnOracle) (fs : FS) (q : Path) (hq : q ≠ path) :
    (cfg.file env path spawn fs).2 q = fs q := by
  cases hn : cfg.editor_unless_nop env with
  | none => simp [Edit.file, hn]
  | some ed =>
      cases hsp : spawn (shellCommand ed) with
      | spawnErr e => simp [Edit.file, edit_file, hn, hsp]
      | ran st c =>
          cases hst : st.success <;>
            simp [Edit.file, edit_file, hn, hsp, hst, fsUpdate, hq]

/-- After a successful `copy_temp`, `file_copy` runs the editor on the
temporary file — touching no other path — and then either fails, deleting
the temporary file, or persists it onto `dst` by rename. -/
theorem file_copy_after_copy (cfg : Edit) (env : Env) (src dst : Path)
    (spawn : SpawnOracle) (o : FileCopyOracle) (fs fs₁ : FS) (t : Path)
    (hc : copy_temp src dst o.copy fs = (.ok t, fs₁)) :
    ∃ fs₂ : FS, (∀ q, q ≠ t → fs₂ q = fs₁ q) ∧
      ((∃ e, cfg.file_copy env src dst spawn o fs = (.error e, delFile fs₂ t)) ∨
       (o.persistErr = none ∧
        cfg.file_copy env src dst spawn o fs =
          (.ok (), fsUpdate (delFile fs₂ t) dst (fs₂ t)))) := by
  unfold Edit.file_copy
  simp only [hc]
  cases hf : cfg.file env t spawn fs₁ with
  | mk res fs₂ =>
      have haway : ∀ q, q ≠ t → fs₂ q = fs₁ q := by
        intro q hq
        have := file_fs_away cfg env t spawn fs₁ q hq
        rw [hf] at this
        exact this
      refine ⟨fs₂, haway, ?_⟩
      cases res with
      | error e => exact Or.inl ⟨e, rfl⟩
      | ok u =>
          cases hpe : o.persistErr with
          | some e => exact Or.inl ⟨⟨.PathError t e⟩, by simp [persist, hpe]⟩
          | none => exact Or.inr ⟨rfl, by simp [persist, hpe]⟩

/-! ## C1: a failed `file_copy` leaves `dst` exactly as it was -/

/-- C1: whenever `file_copy` returns an error, the destination is left
exactly as it was before the call — same contents if it existed, still
absent if it did not.  The hypothesis `hfresh` is the operating system's
guarantee that the freshly created temporary file's name differs from the
destination (temp files are created with `O_EXCL` under a fresh random
name). -/
theorem file_copy_failure_leaves_dst_untouched (cfg : Edit) (env : Env)
    (src dst : Path) (spawn : SpawnOracle) (o : FileCopyOracle) (fs : FS)
    (err : Error)
    (hfresh : ∀ dir : Path, dir.join o.copy.tempName ≠ dst)
    (h : (cfg.file_copy env src dst spawn o fs).1 = .error err) :
    (cfg.file_copy env src dst spawn o fs).2 dst = fs dst := by
  rcases copy_temp_cases src dst o.copy fs with
    ⟨e, hc⟩ | ⟨dir, e, hc⟩ | ⟨dir, content, hsrc, hc⟩
  · unfold Edit.file_copy
    simp only [hc]
  · unfold Edit.file_copy
    simp only [hc]
    have hne : dst ≠ dir.join o.copy.tempName := Ne.symm (hfresh dir)
    simp [delFile, fsUpdate, hne]
  · obtain ⟨fs₂, haway, hres⟩ :=
      file_copy_after_copy cfg env src dst spawn o fs _ _ hc
    have hne : dst ≠ dir.join o.copy.tempName := Ne.symm (hfresh dir)
    rcases hres with ⟨e, hr⟩ | ⟨hpe, hr⟩
    · rw [hr]
      show delFile fs₂ (dir.join o.copy.tempName) dst = fs dst
      rw [delFile_ne _ _ _ hne, haway dst hne]
      simp [fsUpdate, hne]
    · rw [hr] at h
      exact Except.noConfusion h

/-- Witness for C1: a concrete run where the editor exits with status 1,
`file_copy` returns the editor failure, and the pre-existing destination
keeps its prior contents. -/
theorem file_copy_failure_leaves_dst_untouched_witness :
    (Edit.file_copy ⟨none, some "false"⟩ envNone pSrc pDst spawnExit1
        fileCopyOracleOk fsSrcDst).1 =
      .error ⟨.EditorError "false" (.exited 1)⟩ ∧
    (Edit.file_copy ⟨none, some "false"⟩ envNone pSrc pDst spawnExit1
        fileCopyOracleOk fsSrcDst).2 pDst = fsSrcDst pDst :=
  ⟨by rfl,
   file_copy_failure_leaves_dst_untouched ⟨none, some "false"⟩ envNone pSrc
     pDst spawnExit1 fileCopyOracleOk fsSrcDst
     ⟨.EditorError "false" (.exited 1)⟩
     (fun dir => join_ne dir "tmp1" pDst (by decide)) (by rfl)⟩

/-! ## C5: a no-op editor still copies and persists in `file_copy` -/

/-- C5: when the resolved editor command is a no-op (`":"` or `"true"`),
`file_copy` still copies `src` into a temporary file next to `dst` and
still persists it: given that the copy step succeeded (returning the
temporary file `t`) and the rename succeeds, the whole operation succeeds
and `dst` ends up holding exactly `src`'s contents — only the editor
invocation is skipped (the result holds for every spawn oracle). -/
theorem file_copy_nop_still_persists (cfg : Edit) (env : Env)
    (src dst : Path) (spawn : SpawnOracle) (o : FileCopyOracle) (fs : FS)
    (t : Path)
    (hnop : cfg.editor env = ":" ∨ cfg.editor env = "true")
    (hcopy : (copy_temp src dst o.copy fs).1 = .ok t)
    (hpersist : o.persistErr = none) :
    (cfg.file_copy env src dst spawn o fs).1 = .ok () ∧
    (cfg.file_copy env src dst spawn o fs).2 dst = fs src := by
  have hn : cfg.editor_unless_nop env = none := by
    simp only [Edit.editor_unless_nop, if_pos hnop]
  rcases copy_temp_cases src dst o.copy fs with
    ⟨e, hc⟩ | ⟨dir, e, hc⟩ | ⟨dir, content, hsrc, hc⟩
  · rw [hc] at hcopy; exact Except.noConfusion hcopy
  · rw [hc] at hcopy; exact Except.noConfusion hcopy
  · unfold Edit.file_copy
    simp only [hc, Edit.file, hn, persist, hpersist]
    refine ⟨trivial, ?_⟩
    show fsUpdate _ dst _ dst = fs src
    rw [fsUpdate_self, fsUpdate_self, hsrc]

/-- Witness for C5: a no-op editor command `":"`, a source `/s` holding
`[1, 2]` and an existing destination `/d`; `file_copy` succeeds and `/d`
ends up holding `/s`'s contents, although the spawn oracle would fail any
spawn attempted. -/
theorem file_copy_nop_still_persists_witness :
    (Edit.file_copy ⟨none, some ":"⟩ envNone pSrc pDst spawnFails
        fileCopyOracleOk fsSrcDst).1 = .ok () ∧
    (Edit.file_copy ⟨none, some ":"⟩ envNone pSrc pDst spawnFails
        fileCopyOracleOk fsSrcDst).2 pDst = fsSrcDst pSrc :=
  file_copy_nop_still_persists ⟨none, some ":"⟩ envNone pSrc pDst spawnFails
    fileCopyOracleOk fsSrcDst ⟨true, ["tmp1"]⟩ (Or.inl rfl) (by rfl) rfl

/-! ## C9: temporary files are cleaned up on every exit path -/

/-- C9: every temporary file is gone from the filesystem when the
operation returns, on every exit path.  First conjunct: `edit_buffer`
leaves no temporary file behind on any path (success or any failure).
Second conjunct: when `copy_temp` fails, its temporary file is gone
(deleted, or never created).  Third conjunct: after a successful
`copy_temp`, every `file_copy` exit path leaves the temporary file gone —
deleted on the failure paths, renamed onto `dst` on the single successful
persist path (so its own path no longer exists either). -/
theorem temp_file_cleanup :
    (∀ (editor : String) (buf : List Nat) (spawn : SpawnOracle)
       (o : BufferOracle) (fs : FS),
       fs (o.tempDir.join o.tempName) = none →
       (edit_buffer editor buf spawn o fs).2 (o.tempDir.join o.tempName) =
         none) ∧
    (∀ (src dst : Path) (o : CopyOracle) (fs : FS) (q : Path) (e : Error),
       fs q = none → (copy_temp src dst o fs).1 = .error e →
       (copy_temp src dst o fs).2 q = none) ∧
    (∀ (cfg : Edit) (env : Env) (src dst : Path) (spawn : SpawnOracle)
       (o : FileCopyOracle) (fs : FS) (t : Path),
       (copy_temp src dst o.copy fs).1 = .ok t → t ≠ dst →
       (cfg.file_copy env src dst spawn o fs).2 t = none) := by
  refine ⟨?_, ?_, ?_⟩
  · intro editor buf spawn o fs hfresh
    cases hte : o.tempErr with
    | some e => simp [edit_buffer, new_temp_file, hte, hfresh]
    | none =>
        cases hwe : o.writeErr with
        | some e =>
            simp [edit_buffer, new_temp_file, hte, hwe, delFile, fsUpdate]
        | none =>
            cases hsp : spawn (shellCommand editor) with
            | spawnErr e =>
                simp [edit_buffer, new_temp_file, edit_file, hte, hwe, hsp,
                  delFile, fsUpdate]
            | ran st c =>
                cases hst : st.success
                · simp [edit_buffer, new_temp_file, edit_file, hte, hwe,
                    hsp, hst, delFile, fsUpdate]
                · cases hre : o.readErr with
                  | some e =>
                      simp [edit_buffer, new_temp_file, edit_file, readFile,
                        hte, hwe, hsp, hst, hre, delFile, fsUpdate]
                  | none =>
                      cases c with
                      | none =>
                          simp [edit_buffer, new_temp_file, edit_file,
                            readFile, hte, hwe, hsp, hst, hre, delFile,
                            fsUpdate]
                      | some bytes =>
                          simp [edit_buffer, new_temp_file, edit_file,
                            readFile, hte, hwe, hsp, hst, hre, delFile,
                            fsUpdate]
  · intro src dst o fs q e hq herr
    rcases copy_temp_cases src dst o fs with
      ⟨e', hc⟩ | ⟨dir, e', hc⟩ | ⟨dir, content, hsrc, hc⟩
    · rw [hc]; exact hq
    · rw [hc]
      by_cases hqJ : q = dir.join o.tempName
      · rw [hqJ]
        exact delFile_self _ _
      · show delFile _ _ q = none
        rw [delFile_ne _ _ _ hqJ, fsUpdate_ne _ _ _ _ hqJ]
        exact hq
    · rw [hc] at herr; exact Except.noConfusion herr
  · intro cfg env src dst spawn o fs t hok hne
    rcases copy_temp_cases src dst o.copy fs with
      ⟨e', hc⟩ | ⟨dir, e', hc⟩ | ⟨dir, content, hsrc, hc⟩
    · rw [hc] at hok; exact Except.noConfusion hok
    · rw [hc] at hok; exact Except.noConfusion hok
    · have ht : t = dir.join o.copy.tempName := by
        rw [hc] at hok
        exact (Except.ok.inj hok).symm
      subst ht
      obtain ⟨fs₂, haway, hres⟩ :=
        file_copy_after_copy cfg env src dst spawn o fs _ _ hc
      rcases hres with ⟨e, hr⟩ | ⟨hpe, hr⟩
      · rw [hr]
        exact delFile_self _ _
      · rw [hr]
        show fsUpdate _ dst _ _ = none
        rw [fsUpdate_ne _ _ _ _ hne]
        exact delFile_self _ _

/-- Witness for C9: the three cleanup clauses evaluated on concrete runs —
a successful buffer edit, a `copy_temp` whose stream-copy fails, and a
`file_copy` whose editor exits 1. -/
theorem temp_file_cleanup_witness :
    (edit_buffer "ed" [1] (spawnWrites [2]) bufferOracleOk fsEmpty).2
        ⟨true, ["tmp", "t1"]⟩ = none ∧
    (copy_temp pSrc pDst copyOracleCopyFail fsSrcDst).2
        ⟨true, ["tmp1"]⟩ = none ∧
    (Edit.file_copy ⟨none, some "false"⟩ envNone pSrc pDst spawnExit1
        fileCopyOracleOk fsSrcDst).2 ⟨true, ["tmp1"]⟩ = none :=
  ⟨temp_file_cleanup.1 "ed" [1] (spawnWrites [2]) bufferOracleOk fsEmpty rfl,
   temp_file_cleanup.2.1 pSrc pDst copyOracleCopyFail fsSrcDst
     ⟨true, ["tmp1"]⟩ ⟨.PathError ⟨true, ["tmp1"]⟩ (.custom "disk full")⟩
     (by decide) (by rfl),
   temp_file_cleanup.2.2 ⟨none, some "false"⟩ envNone pSrc pDst spawnExit1
     fileCopyOracleOk fsSrcDst ⟨true, ["tmp1"]⟩ (by rfl) (by decide)⟩

/-! ## C6: `Edit::buffer` with a no-op editor -/

/-- Counterexample for C6: with a no-op editor command `":"` and an OS
that would refuse to create the temporary file, `Edit::buffer` still
succeeds, returning the input buffer with the filesystem untouched —
whereas performing the claimed temp-file round-trip (`edit_buffer`) on
the same inputs would fail with the temp-creation `PathError`.  The
round-trip, including the read-back, is therefore not performed. -/
theorem buffer_nop_roundtrip_counterexample :
    Edit.buffer ⟨none, some ":"⟩ envNone [102, 111, 111] spawnFails
        bufferOracleCreateFail fsEmpty = (.ok [102, 111, 111], fsEmpty) ∧
    edit_buffer ":" [102, 111, 111] spawnFails bufferOracleCreateFail
        fsEmpty =
      (.error ⟨.PathError ⟨true, ["tmp"]⟩ (.custom "no temp")⟩, fsEmpty) :=
  ⟨rfl, rfl⟩

/-- C6 (amended): when the resolved editor command is a no-op, the Buffer
Editor skips the entire temp-file round-trip — no temporary file is
created, nothing is written or read back — and returns the input buffer
directly, for every temp-file oracle and spawn oracle. -/
theorem buffer_nop_skips_roundtrip (cfg : Edit) (env : Env)
    (buf : List Nat) (spawn : SpawnOracle) (o : BufferOracle) (fs : FS)
    (hnop : cfg.editor env = ":" ∨ cfg.editor env = "true") :
    cfg.buffer env buf spawn o fs = (.ok buf, fs) := by
  have hn : cfg.editor_unless_nop env = none := by
    simp only [Edit.editor_unless_nop, if_pos hnop]
  simp [Edit.buffer, hn]

/-- Witness for C6 (amended): a no-op editor command `"true"` with a
failing temp-file oracle still returns the buffer unchanged. -/
theorem buffer_nop_skips_roundtrip_witness :
    Edit.buffer ⟨none, some "true"⟩ envNone [1, 2] spawnFails
        bufferOracleCreateFail fsEmpty = (.ok [1, 2], fsEmpty) :=
  buffer_nop_skips_roundtrip ⟨none, some "true"⟩ envNone [1, 2] spawnFails
    bufferOracleCreateFail fsEmpty (Or.inr rfl)

/-! ## C7: placement of the temporary file in `copy_temp` -/

/-- Counterexample for C7: `copy_temp` opens `src` before examining
`dst.parent()`.  With an unreadable `src` and a parentless `dst` (the
root), the returned failure is the `src` open error, not the claimed
`is a directory` `PathFailure` on `dst`. -/
theorem copy_temp_parent_counterexample :
    copy_temp ⟨true, ["nosuch"]⟩ ⟨true, []⟩ copyOracleOk fsEmpty =
      (.error ⟨.PathError ⟨true, ["nosuch"]⟩ (.fromRawOs 2)⟩, fsEmpty) ∧
    (Error.mk (.PathError ⟨true, ["nosuch"]⟩ (.fromRawOs 2)) ≠
      Error.mk (.PathError ⟨true, []⟩ (.fromRawOs 21))) :=
  ⟨rfl, by decide⟩

/-- C7 (amended): provided `src` has been opened successfully, `copy_temp`
hosts its temporary file in the parent directory of `dst`: a parentless
`dst` yields the `is a directory` (`EISDIR`) `PathFailure` with no file
created; an empty parent is resolved to the current working directory,
whose resolution failure yields a `PathFailure` on the empty path; and on
success the temporary file's parent is the resolved hosting directory. -/
theorem copy_temp_parent_resolution (src dst : Path) (o : CopyOracle)
    (fs : FS) (content : List Nat)
    (hopen : o.srcOpen = none) (hsrc : fs src = some content) :
    (dst.parent = none →
       copy_temp src dst o fs =
         (.error ⟨.PathError dst (.fromRawOs 21)⟩, fs)) ∧
    (∀ e, dst.parent = some Path.empty → o.cwdRes = .error e →
       copy_temp src dst o fs = (.error ⟨.PathError Path.empty e⟩, fs)) ∧
    (∀ cwd t, dst.parent = some Path.empty → o.cwdRes = .ok cwd →
       (copy_temp src dst o fs).1 = .ok t → t.parent = some cwd) ∧
    (∀ p t, dst.parent = some p → p ≠ Path.empty →
       (copy_temp src dst o fs).1 = .ok t → t.parent = some p) := by
  refine ⟨?_, ?_, ?_, ?_⟩
  · intro hpar
    simp [copy_temp, hopen, hsrc, hpar]
  · intro e hpar hcwd
    simp [copy_temp, hopen, hsrc, hpar, hcwd]
  · intro cwd t hpar hcwd hok
    cases hte : o.tempErr with
    | some e =>
        simp [copy_temp, new_temp_file, hopen, hsrc, hpar, hcwd, hte] at hok
    | none =>
        cases hce : o.copyErr with
        | some e =>
            simp [copy_temp, new_temp_file, hopen, hsrc, hpar, hcwd, hte,
              hce] at hok
        | none =>
            simp [copy_temp, new_temp_file, hopen, hsrc, hpar, hcwd, hte,
              hce] at hok
            rw [← hok, join_parent]
  · intro p t hpar hp hok
    cases hte : o.tempErr with
    | some e =>
        simp [copy_temp, new_temp_file, hopen, hsrc, hpar, hp, hte] at hok
    | none =>
        cases hce : o.copyErr with
        | some e =>
            simp [copy_temp, new_temp_file, hopen, hsrc, hpar, hp, hte,
              hce] at hok
        | none =>
            simp [copy_temp, new_temp_file, hopen, hsrc, hpar, hp, hte,
              hce] at hok
            rw [← hok, join_parent]

/-- Witness for C7 (amended): with a readable `/s`, a parentless
destination `/` yields the `EISDIR` failure; for destination `/d` the
temporary file `/tmp1` is created directly inside `/d`'s parent `/`; a
relative destination resolves the empty parent through the current
working directory. -/
theorem copy_temp_parent_resolution_witness :
    copy_temp pSrc ⟨true, []⟩ copyOracleOk fsSrcDst =
      (.error ⟨.PathError ⟨true, []⟩ (.fromRawOs 21)⟩, fsSrcDst) ∧
    (copy_temp pSrc pDst copyOracleOk fsSrcDst).1 =
      .ok ⟨true, ["tmp1"]⟩ ∧
    Path.parent ⟨true, ["tmp1"]⟩ = some ⟨true, []⟩ ∧
    (copy_temp pSrc ⟨false, ["d"]⟩ copyOracleOk fsSrcDst).1 =
      .ok ⟨false, ["tmp1"]⟩ ∧
    Path.parent ⟨false, ["tmp1"]⟩ = some Path.empty :=
  ⟨(copy_temp_parent_resolution pSrc ⟨true, []⟩ copyOracleOk fsSrcDst
      [1, 2] rfl (by decide)).1 rfl,
   by rfl,
   (copy_temp_parent_resolution pSrc pDst copyOracleOk fsSrcDst
      [1, 2] rfl (by decide)).2.2.2 ⟨true, []⟩ ⟨true, ["tmp1"]⟩ rfl
      (by decide) (by rfl),
   by rfl,
   (copy_temp_parent_resolution pSrc ⟨false, ["d"]⟩ copyOracleOk fsSrcDst
      [1, 2] rfl (by decide)).2.2.1 Path.empty ⟨false, ["tmp1"]⟩ rfl rfl
      (by rfl)⟩
